import Mathlib

/-!
Shallow embedding of the layout/placement core of the qr-barcode-pdf-generator
repository (src/layout_engine.py and the grid-resolution part of src/config.py),
with theorems settling the specification claims about it.

Conventions of the embedding:
* Python `int` indices are `ℕ` (the claims quantify over non-negative indices);
  Python `//` and `%` on non-negative ints coincide with `Nat./` and `Nat.%`.
* Millimetre quantities (Python floats carrying exact decimal inputs) are `ℚ`.
* Python's `int(x)` float conversion truncates toward zero; it is embedded as
  `truncTowardZero` below.
* A Python function that can raise is embedded as `Except String _`; in
  particular `LayoutEngine.get_content_position` reads the local variable
  `text_y_mm` in its return statement, and that variable is never assigned on
  the `vertical` arrangement branch, so the read raises `UnboundLocalError`
  there whenever the text position is not `'none'`.  The embedding threads
  `text_y_mm` as an `Option ℚ` (`none` = unassigned) and turns the unbound
  read into `Except.error`.
-/

namespace QRPdf

/-- `text.position` values accepted by `Config._validate`. -/
inductive TextPos where
  | top
  | bottom
  | none
deriving DecidableEq, Repr

/-- `text.alignment` values accepted by `Config._validate`. -/
inductive TextAlign where
  | left
  | center
  | right
deriving DecidableEq, Repr

/-- `layout.code_arrangement` values accepted by `Config._validate`. -/
inductive Arrangement where
  | horizontal
  | vertical
deriving DecidableEq, Repr

/-- The configuration scalars `LayoutEngine.__init__` pulls out of the config
dict (src/layout_engine.py lines 45-79).  `label_width_mm` etc. are the frozen
values produced by `Config._validate`. -/
structure LayoutConfig where
  margin_mm : ℚ
  label_width_mm : ℚ
  label_height_mm : ℚ
  horizontal_gap_mm : ℚ
  vertical_gap_mm : ℚ
  labels_per_row : ℕ
  labels_per_column : ℕ
  qr_size_mm : ℚ
  barcode_height_mm : ℚ
  code_spacing_mm : ℚ
  code_arrangement : Arrangement
  text_position : TextPos
  text_alignment : TextAlign
  text_margin_mm : ℚ
  font_size : ℚ
deriving DecidableEq, Repr

/-- `self.labels_per_page = self.labels_per_row * self.labels_per_column`
(src/layout_engine.py line 79). -/
def labelsPerPage (cfg : LayoutConfig) : ℕ :=
  cfg.labels_per_row * cfg.labels_per_column

/-- The `LabelPosition` dataclass (src/layout_engine.py lines 6-12). -/
structure LabelPosition where
  row : ℕ
  column : ℕ
  x_mm : ℚ
  y_mm : ℚ
deriving DecidableEq, Repr

/-- The `ContentPosition` dataclass (src/layout_engine.py lines 15-26). -/
structure ContentPosition where
  qr_x_mm : ℚ
  qr_y_mm : ℚ
  barcode_x_mm : ℚ
  barcode_y_mm : ℚ
  barcode_width_mm : ℚ
  qr_text_x_mm : ℚ
  qr_text_y_mm : ℚ
  barcode_text_x_mm : ℚ
  barcode_text_y_mm : ℚ
deriving DecidableEq, Repr

/-- The `MarkerPosition` dataclass (src/layout_engine.py lines 29-35). -/
structure MarkerPosition where
  marker_x_mm : ℚ
  marker_y_mm : ℚ
  text_x_mm : ℚ
  text_y_mm : ℚ
deriving DecidableEq, Repr

/-- `LayoutEngine.get_label_position` (src/layout_engine.py lines 81-103). -/
def getLabelPosition (cfg : LayoutConfig) (index : ℕ) : LabelPosition :=
  let label_index_on_page := index % labelsPerPage cfg
  let row := label_index_on_page / cfg.labels_per_row
  let column := label_index_on_page % cfg.labels_per_row
  let x_mm := cfg.margin_mm + (column * (cfg.label_width_mm + cfg.horizontal_gap_mm))
  let y_mm := cfg.margin_mm + (row * (cfg.label_height_mm + cfg.vertical_gap_mm))
  { row := row, column := column, x_mm := x_mm, y_mm := y_mm }

/-- `LayoutEngine.get_page_number` (src/layout_engine.py lines 105-107). -/
def getPageNumber (cfg : LayoutConfig) (index : ℕ) : ℕ :=
  index / labelsPerPage cfg

/-- `font_size_mm = font_size_pt * 0.352778` (src/layout_engine.py line 129). -/
def fontSizeMm (cfg : LayoutConfig) : ℚ :=
  cfg.font_size * (352778 / 1000000)

/-- The local variables of `get_content_position` after the
`if arrangement == 'horizontal': ... else: ...` block (src/layout_engine.py
lines 131-205) and before the return statement.  Locals that some path leaves
unassigned are `Option ℚ` (`none` = Python's "referenced before assignment"):
`text_y_mm` is assigned on every horizontal sub-branch but never on the
vertical branch; `qr_text_y_mm`/`barcode_text_y_mm` are assigned on every
vertical sub-branch and on the horizontal `'none'` sub-branch only. -/
structure ContentLocals where
  qr_x_mm : ℚ
  qr_y_mm : ℚ
  barcode_x_mm : ℚ
  barcode_y_mm : ℚ
  qr_text_x_mm : ℚ
  barcode_text_x_mm : ℚ
  text_y_mm : Option ℚ
  qr_text_y_mm : Option ℚ
  barcode_text_y_mm : Option ℚ
deriving DecidableEq, Repr

/-- The arrangement branch of `LayoutEngine.get_content_position`
(src/layout_engine.py lines 119-205), computing all local variables the
return statement may read. -/
def contentLocals (cfg : LayoutConfig) (label_pos : LabelPosition)
    (barcode_width_mm : ℚ) : ContentLocals :=
  let qr_size_mm := cfg.qr_size_mm
  let barcode_height_mm := cfg.barcode_height_mm
  let code_spacing_mm := cfg.code_spacing_mm
  let text_pos := cfg.text_position
  let text_margin_mm := cfg.text_margin_mm
  let font_size_mm := fontSizeMm cfg
  match cfg.code_arrangement with
  | Arrangement.horizontal =>
    -- QR and barcode side by side (lines 131-165)
    let total_width := qr_size_mm + code_spacing_mm + barcode_width_mm
    let start_x := label_pos.x_mm + (cfg.label_width_mm - total_width) / 2
    let qr_x_mm := start_x
    let qr_y_mm :=
      if text_pos = TextPos.bottom then
        label_pos.y_mm + (cfg.label_height_mm - qr_size_mm - font_size_mm - text_margin_mm) / 2
      else  -- top or none
        label_pos.y_mm + (cfg.label_height_mm - qr_size_mm) / 2
    let barcode_x_mm := qr_x_mm + qr_size_mm + code_spacing_mm
    let barcode_y_mm := label_pos.y_mm + (cfg.label_height_mm - barcode_height_mm) / 2
    match text_pos with
    | TextPos.bottom =>
      { qr_x_mm := qr_x_mm, qr_y_mm := qr_y_mm,
        barcode_x_mm := barcode_x_mm, barcode_y_mm := barcode_y_mm,
        qr_text_x_mm := qr_x_mm + qr_size_mm / 2,
        barcode_text_x_mm := barcode_x_mm + barcode_width_mm / 2,
        text_y_mm := some (label_pos.y_mm + cfg.label_height_mm - font_size_mm - text_margin_mm),
        qr_text_y_mm := Option.none, barcode_text_y_mm := Option.none }
    | TextPos.top =>
      { qr_x_mm := qr_x_mm, qr_y_mm := qr_y_mm,
        barcode_x_mm := barcode_x_mm, barcode_y_mm := barcode_y_mm,
        qr_text_x_mm := qr_x_mm + qr_size_mm / 2,
        barcode_text_x_mm := barcode_x_mm + barcode_width_mm / 2,
        text_y_mm := some (label_pos.y_mm + text_margin_mm),
        qr_text_y_mm := Option.none, barcode_text_y_mm := Option.none }
    | TextPos.none =>
      { qr_x_mm := qr_x_mm, qr_y_mm := qr_y_mm,
        barcode_x_mm := barcode_x_mm, barcode_y_mm := barcode_y_mm,
        qr_text_x_mm := 0, barcode_text_x_mm := 0,
        text_y_mm := some 0,
        qr_text_y_mm := some 0, barcode_text_y_mm := some 0 }
  | Arrangement.vertical =>
    -- QR on top, barcode below (lines 167-205)
    let qr_x_mm := label_pos.x_mm + (cfg.label_width_mm - qr_size_mm) / 2
    let qr_y_mm :=
      match text_pos with
      | TextPos.top => label_pos.y_mm + font_size_mm + text_margin_mm + text_margin_mm
      | TextPos.bottom =>
        let space_needed_bottom := barcode_height_mm + font_size_mm + text_margin_mm
        let available_for_qr := cfg.label_height_mm - space_needed_bottom - code_spacing_mm
        label_pos.y_mm + (available_for_qr - qr_size_mm) / 2
      | TextPos.none =>
        let available_height := cfg.label_height_mm - code_spacing_mm
        label_pos.y_mm + (available_height - qr_size_mm - barcode_height_mm) / 2
    let qr_text_y_mm : ℚ :=
      match text_pos with
      | TextPos.top => label_pos.y_mm + text_margin_mm
      | TextPos.bottom => qr_y_mm + qr_size_mm + text_margin_mm
      | TextPos.none => 0
    let barcode_x_mm := label_pos.x_mm + (cfg.label_width_mm - barcode_width_mm) / 2
    let barcode_y_mm :=
      match text_pos with
      | TextPos.bottom =>
        label_pos.y_mm + cfg.label_height_mm - barcode_height_mm - font_size_mm - text_margin_mm
      | _ => qr_y_mm + qr_size_mm + code_spacing_mm
    let barcode_text_y_mm : ℚ :=
      match text_pos with
      | TextPos.bottom => label_pos.y_mm + cfg.label_height_mm - font_size_mm - text_margin_mm
      | TextPos.top => barcode_y_mm + barcode_height_mm + text_margin_mm
      | TextPos.none => 0
    -- note: the local text_y_mm is never assigned on this branch
    { qr_x_mm := qr_x_mm, qr_y_mm := qr_y_mm,
      barcode_x_mm := barcode_x_mm, barcode_y_mm := barcode_y_mm,
      qr_text_x_mm := qr_x_mm + qr_size_mm / 2,
      barcode_text_x_mm := barcode_x_mm + barcode_width_mm / 2,
      text_y_mm := Option.none,
      qr_text_y_mm := some qr_text_y_mm, barcode_text_y_mm := some barcode_text_y_mm }

/-- `LayoutEngine.get_content_position` (src/layout_engine.py lines 109-217).
The return statement (lines 207-217) builds the `ContentPosition` with every
caption field guarded by `if text_pos != 'none' else 0`, and it reads the
local `text_y_mm` for BOTH caption y-fields (discarding the per-element
`qr_text_y_mm`/`barcode_text_y_mm` computed on the vertical branch).  Since
the vertical branch never assigns `text_y_mm`, that read raises
`UnboundLocalError` whenever the arrangement is vertical and the text
position is not `'none'`; this is embedded as `Except.error`. -/
def getContentPosition (cfg : LayoutConfig) (label_pos : LabelPosition)
    (barcode_width_mm : ℚ) : Except String ContentPosition :=
  let l := contentLocals cfg label_pos barcode_width_mm
  if cfg.text_position = TextPos.none then
    Except.ok
      { qr_x_mm := l.qr_x_mm, qr_y_mm := l.qr_y_mm,
        barcode_x_mm := l.barcode_x_mm, barcode_y_mm := l.barcode_y_mm,
        barcode_width_mm := barcode_width_mm,
        qr_text_x_mm := 0, qr_text_y_mm := 0,
        barcode_text_x_mm := 0, barcode_text_y_mm := 0 }
  else
    match l.text_y_mm with
    | some text_y_mm =>
      Except.ok
        { qr_x_mm := l.qr_x_mm, qr_y_mm := l.qr_y_mm,
          barcode_x_mm := l.barcode_x_mm, barcode_y_mm := l.barcode_y_mm,
          barcode_width_mm := barcode_width_mm,
          qr_text_x_mm := l.qr_text_x_mm, qr_text_y_mm := text_y_mm,
          barcode_text_x_mm := l.barcode_text_x_mm, barcode_text_y_mm := text_y_mm }
    | Option.none =>
      Except.error "UnboundLocalError: local variable referenced before assignment"

/-- `LayoutEngine.get_marker_position` (src/layout_engine.py lines 219-274). -/
def getMarkerPosition (cfg : LayoutConfig) (label_pos : LabelPosition)
    (marker_footprint_mm : ℚ) : MarkerPosition :=
  let text_pos := cfg.text_position
  let text_align := cfg.text_alignment
  let text_margin_mm := cfg.text_margin_mm
  let font_size_mm := fontSizeMm cfg
  -- Marker is horizontally centered (line 238)
  let marker_x_mm := label_pos.x_mm + (cfg.label_width_mm - marker_footprint_mm) / 2
  -- Vertical positioning depends on text position (lines 241-256)
  let yy :=
    match text_pos with
    | TextPos.bottom =>
      let text_y_mm := label_pos.y_mm + cfg.label_height_mm - font_size_mm - text_margin_mm
      let available_height := cfg.label_height_mm - font_size_mm - text_margin_mm - text_margin_mm
      (label_pos.y_mm + (available_height - marker_footprint_mm) / 2, text_y_mm)
    | TextPos.top =>
      let text_y_mm := label_pos.y_mm + text_margin_mm + font_size_mm
      let available_height := cfg.label_height_mm - font_size_mm - text_margin_mm - text_margin_mm
      (label_pos.y_mm + text_margin_mm + font_size_mm + text_margin_mm
        + (available_height - marker_footprint_mm) / 2, text_y_mm)
    | TextPos.none =>
      (label_pos.y_mm + (cfg.label_height_mm - marker_footprint_mm) / 2, 0)
  -- Text X position based on alignment (lines 259-267)
  let text_x_mm :=
    if text_pos ≠ TextPos.none then
      match text_align with
      | TextAlign.center => label_pos.x_mm + cfg.label_width_mm / 2
      | TextAlign.right => label_pos.x_mm + cfg.label_width_mm
      | TextAlign.left => label_pos.x_mm
    else 0
  { marker_x_mm := marker_x_mm, marker_y_mm := yy.1,
    text_x_mm := text_x_mm, text_y_mm := yy.2 }

/-! ### Grid resolution (`Config._validate`, src/config.py lines 166-210) -/

/-- Python's `int(x)` conversion of a float/rational: truncation toward zero. -/
def truncTowardZero (q : ℚ) : ℤ :=
  Int.tdiv q.num q.den

/-- The layout-resolution errors of `Config._validate` (each is a
`click.echo` + `sys.exit(1)` in the source). -/
inductive LayoutError where
  | NoFit           -- "Label dimensions too large for page" (line 186)
  | DegenerateCell  -- "Grid layout results in invalid label dimensions" (line 203)
  | NoSpec          -- "Must specify either label dimensions or grid layout" (line 209)
deriving DecidableEq, Repr

/-- The layout values frozen by a successful `Config._validate` run. -/
structure ResolvedGrid where
  label_width_mm : ℚ
  label_height_mm : ℚ
  labels_per_row : ℤ
  labels_per_column : ℤ
deriving DecidableEq, Repr

/-- The "Validate label dimensions vs grid" step of `Config._validate`
(src/config.py lines 166-210).  `label_w?`/`label_h?` are the possibly-`None`
`layout['label_width_mm']`/`['label_height_mm']` entries, `per_row?`/`per_col?`
the possibly-`None` grid counts; `usable_width/height` were computed earlier
from the margin (lines 114-115). -/
def resolveGrid (margin_mm gap_h gap_v : ℚ) (label_w? label_h? : Option ℚ)
    (per_row? per_col? : Option ℤ) : Except LayoutError ResolvedGrid :=
  let usable_width : ℚ := 210 - 2 * margin_mm
  let usable_height : ℚ := 297 - 2 * margin_mm
  match label_w?, label_h? with
  | some label_w, some label_h =>
    -- has_dimensions: calculate how many fit (lines 174-191)
    let labels_per_row := truncTowardZero ((usable_width + gap_h) / (label_w + gap_h))
    let labels_per_column := truncTowardZero ((usable_height + gap_v) / (label_h + gap_v))
    if labels_per_row < 1 ∨ labels_per_column < 1 then
      Except.error LayoutError.NoFit
    else
      Except.ok { label_width_mm := label_w, label_height_mm := label_h,
                  labels_per_row := labels_per_row, labels_per_column := labels_per_column }
  | _, _ =>
    match per_row?, per_col? with
    | some labels_per_row, some labels_per_column =>
      -- has_grid: calculate dimensions from grid (lines 192-207)
      let label_w := (usable_width - (labels_per_row - 1) * gap_h) / (labels_per_row : ℚ)
      let label_h := (usable_height - (labels_per_column - 1) * gap_v) / (labels_per_column : ℚ)
      if label_w ≤ 0 ∨ label_h ≤ 0 then
        Except.error LayoutError.DegenerateCell
      else
        Except.ok { label_width_mm := label_w, label_height_mm := label_h,
                    labels_per_row := labels_per_row, labels_per_column := labels_per_column }
    | _, _ => Except.error LayoutError.NoSpec

/-- The "Both label dimensions and grid layout specified" warning condition
(src/config.py lines 171-172). -/
def ambiguousGridWarning (label_w? label_h? : Option ℚ)
    (per_row? per_col? : Option ℤ) : Bool :=
  (label_w?.isSome && label_h?.isSome) && (per_row?.isSome && per_col?.isSome)

/-! ### Specification-side formulas and concrete scenario data -/

/-- The spec's formula for `position_of` (spec §4.2): `row = local div
labels_per_row`, `column = local mod labels_per_row`, `x_mm = margin + column *
(label_width_mm + horizontal_gap_mm)`, `y_mm = margin + row * (label_height_mm
+ vertical_gap_mm)`, where `local = index mod labels_per_page`. -/
def labelPositionSpec (cfg : LayoutConfig) (index : ℕ) : LabelPosition :=
  { row := (index % labelsPerPage cfg) / cfg.labels_per_row,
    column := (index % labelsPerPage cfg) % cfg.labels_per_row,
    x_mm := cfg.margin_mm
      + ((index % labelsPerPage cfg) % cfg.labels_per_row : ℕ)
        * (cfg.label_width_mm + cfg.horizontal_gap_mm),
    y_mm := cfg.margin_mm
      + ((index % labelsPerPage cfg) / cfg.labels_per_row : ℕ)
        * (cfg.label_height_mm + cfg.vertical_gap_mm) }

/-- The spec's concrete scenario configuration (spec §8): A4 page, margin
10mm, labels 60×40mm, 5mm gaps, resolved grid 3×6; QR 25mm, barcode height
15mm, spacing 5mm, font 10pt, text margin 2mm, captions at the bottom,
centered, codes side by side. -/
def specCfg : LayoutConfig :=
  { margin_mm := 10, label_width_mm := 60, label_height_mm := 40,
    horizontal_gap_mm := 5, vertical_gap_mm := 5,
    labels_per_row := 3, labels_per_column := 6,
    qr_size_mm := 25, barcode_height_mm := 15, code_spacing_mm := 5,
    code_arrangement := Arrangement.horizontal, text_position := TextPos.bottom,
    text_alignment := TextAlign.center, text_margin_mm := 2, font_size := 10 }

/-- Truncation toward zero agrees with the floor on non-negative rationals. -/
theorem truncTowardZero_eq_floor (q : ℚ) (h : 0 ≤ q) : truncTowardZero q = ⌊q⌋ := by
  rw [truncTowardZero, Rat.floor_def]
  exact Int.tdiv_eq_ediv (Rat.num_nonneg.mpr h) (Int.natCast_nonneg _)

/-- C1: for every non-negative index and frozen grid (counts ≥ 1),
`get_label_position` returns exactly the spec's row/column/x/y formulas; and in
the spec's concrete scenario (margin 10mm, labels 60×40mm, gaps 5mm), grid
resolution yields a 3×6 grid (18 labels per page), index 0 maps to page 0,
row 0, col 0, x=10, y=10; index 3 to page 0, row 1, col 0, x=10, y=55; and
index 18 to page 1, row 0, col 0, x=10, y=10. -/
theorem C1_label_position_formula :
    (∀ (cfg : LayoutConfig) (i : ℕ), 1 ≤ cfg.labels_per_row →
      1 ≤ cfg.labels_per_column →
      getLabelPosition cfg i = labelPositionSpec cfg i)
    ∧ resolveGrid 10 5 5 (some 60) (some 40) (some 3) (some 7)
        = Except.ok { label_width_mm := 60, label_height_mm := 40,
                      labels_per_row := 3, labels_per_column := 6 }
    ∧ labelsPerPage specCfg = 18
    ∧ getPageNumber specCfg 0 = 0
    ∧ getLabelPosition specCfg 0 = { row := 0, column := 0, x_mm := 10, y_mm := 10 }
    ∧ getPageNumber specCfg 3 = 0
    ∧ getLabelPosition specCfg 3 = { row := 1, column := 0, x_mm := 10, y_mm := 55 }
    ∧ getPageNumber specCfg 18 = 1
    ∧ getLabelPosition specCfg 18 = { row := 0, column := 0, x_mm := 10, y_mm := 10 } := by
  refine ⟨fun cfg i _ _ => rfl, ?_, rfl, rfl, ?_, rfl, ?_, rfl, ?_⟩
  · norm_num [resolveGrid, truncTowardZero]
    rw [show Int.tdiv 94 15 = 6 by decide]
    norm_num
  · norm_num [getLabelPosition, labelsPerPage, specCfg]
  · norm_num [getLabelPosition, labelsPerPage, specCfg]
  · norm_num [getLabelPosition, labelsPerPage, specCfg]

/-- C1 witness: the universally quantified part of C1 instantiated at the
concrete scenario configuration and index 3, with its grid hypotheses
discharged. -/
theorem C1_label_position_formula_witness :
    1 ≤ specCfg.labels_per_row ∧ 1 ≤ specCfg.labels_per_column ∧
    getLabelPosition specCfg 3 = labelPositionSpec specCfg 3 :=
  ⟨by decide, by decide,
    C1_label_position_formula.1 specCfg 3 (by decide) (by decide)⟩

/-- C6: for a frozen grid with `labels_per_page ≥ 1`, the page number is
non-decreasing in the index and increases by exactly 1 every `labels_per_page`
indices, with `page_of(labels_per_page - 1) = 0` and
`page_of(labels_per_page) = 1`; and the column cycles through
`0..labels_per_row-1` with period `labels_per_row`, taking each value exactly
once per period. -/
theorem C6_page_monotone_column_cycle (cfg : LayoutConfig)
    (h : 1 ≤ labelsPerPage cfg) :
    (∀ i j : ℕ, i ≤ j → getPageNumber cfg i ≤ getPageNumber cfg j)
    ∧ (∀ i : ℕ, getPageNumber cfg (i + labelsPerPage cfg) = getPageNumber cfg i + 1)
    ∧ getPageNumber cfg (labelsPerPage cfg - 1) = 0
    ∧ getPageNumber cfg (labelsPerPage cfg) = 1
    ∧ (∀ i : ℕ, (getLabelPosition cfg (i + cfg.labels_per_row)).column
        = (getLabelPosition cfg i).column)
    ∧ (∀ i : ℕ, (getLabelPosition cfg i).column < cfg.labels_per_row)
    ∧ (∀ k d : ℕ, d < cfg.labels_per_row →
        (getLabelPosition cfg (k * cfg.labels_per_row + d)).column = d) := by
  have hL : 0 < labelsPerPage cfg := h
  have hr : 0 < cfg.labels_per_row := by
    rcases Nat.eq_zero_or_pos cfg.labels_per_row with h0 | h0
    · exfalso
      rw [labelsPerPage, h0, Nat.zero_mul] at hL
      exact Nat.lt_irrefl 0 hL
    · exact h0
  have hdvd : cfg.labels_per_row ∣ labelsPerPage cfg :=
    dvd_mul_right cfg.labels_per_row cfg.labels_per_column
  have hcol : ∀ i : ℕ, (getLabelPosition cfg i).column = i % cfg.labels_per_row := by
    intro i
    simp only [getLabelPosition]
    exact Nat.mod_mod_of_dvd i hdvd
  refine ⟨?_, ?_, ?_, ?_, ?_, ?_, ?_⟩
  · intro i j hij
    exact Nat.div_le_div_right hij
  · intro i
    exact Nat.add_div_right i hL
  · exact Nat.div_eq_of_lt (by omega)
  · exact Nat.div_self hL
  · intro i
    rw [hcol, hcol, Nat.add_mod_right]
  · intro i
    rw [hcol]
    exact Nat.mod_lt i hr
  · intro k d hd
    rw [hcol, Nat.mul_comm, Nat.mul_add_mod, Nat.mod_eq_of_lt hd]

/-- C6 witness: two of the page facts at the concrete scenario grid
(`labels_per_page = 18`). -/
theorem C6_page_monotone_column_cycle_witness :
    1 ≤ labelsPerPage specCfg
    ∧ getPageNumber specCfg (labelsPerPage specCfg - 1) = 0
    ∧ getPageNumber specCfg (labelsPerPage specCfg) = 1 :=
  ⟨by decide, (C6_page_monotone_column_cycle specCfg (by decide)).2.2.1,
    (C6_page_monotone_column_cycle specCfg (by decide)).2.2.2.1⟩

/-- C10 (implicit): the flat index is recoverable from the computed page, row
and column: `page_of(i) * labels_per_page + row(i) * labels_per_row +
column(i) = i`, hence the mapping from indices to (page, row, column) triples
is injective — two distinct indices never share a cell of a page. -/
theorem C10_index_recoverable (cfg : LayoutConfig)
    (hr : 1 ≤ cfg.labels_per_row) (hc : 1 ≤ cfg.labels_per_column) :
    (∀ i : ℕ, getPageNumber cfg i * labelsPerPage cfg
        + (getLabelPosition cfg i).row * cfg.labels_per_row
        + (getLabelPosition cfg i).column = i)
    ∧ (∀ i j : ℕ, getPageNumber cfg i = getPageNumber cfg j →
        (getLabelPosition cfg i).row = (getLabelPosition cfg j).row →
        (getLabelPosition cfg i).column = (getLabelPosition cfg j).column →
        i = j) := by
  have key : ∀ i : ℕ, getPageNumber cfg i * labelsPerPage cfg
      + (getLabelPosition cfg i).row * cfg.labels_per_row
      + (getLabelPosition cfg i).column = i := by
    intro i
    simp only [getPageNumber, getLabelPosition]
    rw [add_assoc, Nat.div_add_mod', Nat.div_add_mod']
  refine ⟨key, ?_⟩
  intro i j h1 h2 h3
  rw [← key i, ← key j, h1, h2, h3]

/-- C10 witness: the recoverability identity instantiated at the concrete
scenario grid and index 25. -/
theorem C10_index_recoverable_witness :
    1 ≤ specCfg.labels_per_row ∧ 1 ≤ specCfg.labels_per_column ∧
    getPageNumber specCfg 25 * labelsPerPage specCfg
      + (getLabelPosition specCfg 25).row * specCfg.labels_per_row
      + (getLabelPosition specCfg 25).column = 25 :=
  ⟨by decide, by decide,
    (C10_index_recoverable specCfg (by decide) (by decide)).1 25⟩

/-- The concrete scenario configuration switched to vertical arrangement with
bottom captions. -/
def vbCfg : LayoutConfig :=
  { specCfg with code_arrangement := Arrangement.vertical,
                 text_position := TextPos.bottom }

/-- The concrete scenario configuration switched to vertical arrangement with
top captions. -/
def vtCfg : LayoutConfig :=
  { specCfg with code_arrangement := Arrangement.vertical,
                 text_position := TextPos.top }

/-- The cell at page 0, row 0, column 0 of the concrete scenario grid. -/
def lp0 : LabelPosition := { row := 0, column := 0, x_mm := 10, y_mm := 10 }

/-- C2 (refuting the totality claim): `get_content_position` raises
`UnboundLocalError` exactly when the arrangement is vertical and the caption
mode is not `none` — its return statement reads the local `text_y_mm`, which
the vertical branch never assigns; in particular it fails on the concrete
scenario grid with vertical arrangement and top captions.  (The other position
functions, `getLabelPosition`, `getPageNumber` and `getMarkerPosition`, are
total Lean functions.) -/
theorem C2_content_position_failure :
    (∀ (cfg : LayoutConfig) (lp : LabelPosition) (w : ℚ),
      (∃ e, getContentPosition cfg lp w = Except.error e) ↔
        (cfg.code_arrangement = Arrangement.vertical
          ∧ cfg.text_position ≠ TextPos.none))
    ∧ getContentPosition vtCfg lp0 40
        = Except.error "UnboundLocalError: local variable referenced before assignment" := by
  constructor
  · intro cfg lp w
    cases ha : cfg.code_arrangement <;> cases ht : cfg.text_position <;>
      simp [getContentPosition, contentLocals, ha, ht]
  · rfl

/-- C3 (refuting the returned-positions claim): in vertical arrangement with
bottom captions the function never returns a `ContentPosition` at all — the
call raises `UnboundLocalError` — even though the branch body computes exactly
the interleaved per-element caption positions the claim describes (barcode at
the cell bottom above its own caption, QR centered in the remaining band with
its caption directly below it) and then discards them at the return
statement. -/
theorem C3_vertical_bottom_interleaving :
    getContentPosition vbCfg lp0 40
      = Except.error "UnboundLocalError: local variable referenced before assignment"
    ∧ (contentLocals vbCfg lp0 40).barcode_y_mm
        = lp0.y_mm + vbCfg.label_height_mm - vbCfg.barcode_height_mm
          - fontSizeMm vbCfg - vbCfg.text_margin_mm
    ∧ (contentLocals vbCfg lp0 40).barcode_text_y_mm
        = some (lp0.y_mm + vbCfg.label_height_mm - fontSizeMm vbCfg - vbCfg.text_margin_mm)
    ∧ (contentLocals vbCfg lp0 40).qr_y_mm
        = lp0.y_mm + ((vbCfg.label_height_mm
            - (vbCfg.barcode_height_mm + fontSizeMm vbCfg + vbCfg.text_margin_mm)
            - vbCfg.code_spacing_mm) - vbCfg.qr_size_mm) / 2
    ∧ (contentLocals vbCfg lp0 40).qr_text_y_mm
        = some ((contentLocals vbCfg lp0 40).qr_y_mm + vbCfg.qr_size_mm
            + vbCfg.text_margin_mm) := by
  exact ⟨rfl, rfl, rfl, rfl, rfl⟩

/-- C7: in horizontal arrangement the QR+spacing+barcode block is horizontally
centered in the cell, the barcode sits right of the QR by `qr_size + spacing`,
the barcode is vertically centered on its own height regardless of caption
mode, and with caption mode `none` the QR is independently vertically centered
too; in the spec's concrete scenario (qr 25, barcode 40, spacing 5, cell width
80) this puts the QR at `x+5` and the barcode at `x+35`. -/
theorem C7_horizontal_centering :
    (∀ (cfg : LayoutConfig) (lp : LabelPosition) (w : ℚ),
      cfg.code_arrangement = Arrangement.horizontal →
      ∃ c, getContentPosition cfg lp w = Except.ok c
        ∧ c.qr_x_mm = lp.x_mm
            + (cfg.label_width_mm - (cfg.qr_size_mm + cfg.code_spacing_mm + w)) / 2
        ∧ c.barcode_x_mm = c.qr_x_mm + cfg.qr_size_mm + cfg.code_spacing_mm
        ∧ c.barcode_y_mm + cfg.barcode_height_mm / 2
            = lp.y_mm + cfg.label_height_mm / 2
        ∧ (cfg.text_position = TextPos.none →
            c.qr_y_mm + cfg.qr_size_mm / 2 = lp.y_mm + cfg.label_height_mm / 2))
    ∧ (∀ lp : LabelPosition,
        ∃ c, getContentPosition { specCfg with label_width_mm := 80 } lp 40
            = Except.ok c
          ∧ c.qr_x_mm = lp.x_mm + 5 ∧ c.barcode_x_mm = lp.x_mm + 35) := by
  have main : ∀ (cfg : LayoutConfig) (lp : LabelPosition) (w : ℚ),
      cfg.code_arrangement = Arrangement.horizontal →
      ∃ c, getContentPosition cfg lp w = Except.ok c
        ∧ c.qr_x_mm = lp.x_mm
            + (cfg.label_width_mm - (cfg.qr_size_mm + cfg.code_spacing_mm + w)) / 2
        ∧ c.barcode_x_mm = c.qr_x_mm + cfg.qr_size_mm + cfg.code_spacing_mm
        ∧ c.barcode_y_mm + cfg.barcode_height_mm / 2
            = lp.y_mm + cfg.label_height_mm / 2
        ∧ (cfg.text_position = TextPos.none →
            c.qr_y_mm + cfg.qr_size_mm / 2 = lp.y_mm + cfg.label_height_mm / 2) := by
    intro cfg lp w ha
    cases ht : cfg.text_position <;>
      · simp only [getContentPosition, contentLocals, ha, ht, reduceIte]
        refine ⟨_, rfl, ?_, ?_, ?_, ?_⟩ <;>
          first
          | (intro hnone; exact absurd hnone (by decide))
          | (intros; simp; ring)
          | (intros; simp)
  refine ⟨main, fun lp => ?_⟩
  obtain ⟨c, hc, h1, h2, _, _⟩ :=
    main { specCfg with label_width_mm := 80 } lp 40 rfl
  refine ⟨c, hc, ?_, ?_⟩
  · rw [h1]
    norm_num [specCfg]
  · rw [h2, h1]
    norm_num [specCfg]
    ring

/-- C7 witness: the horizontal-centering facts instantiated at the concrete
scenario configuration (horizontal arrangement holds definitionally). -/
theorem C7_horizontal_centering_witness :
    specCfg.code_arrangement = Arrangement.horizontal
    ∧ (∃ c, getContentPosition specCfg lp0 40 = Except.ok c
        ∧ c.qr_x_mm = lp0.x_mm
            + (specCfg.label_width_mm
              - (specCfg.qr_size_mm + specCfg.code_spacing_mm + 40)) / 2
        ∧ c.barcode_x_mm = c.qr_x_mm + specCfg.qr_size_mm + specCfg.code_spacing_mm
        ∧ c.barcode_y_mm + specCfg.barcode_height_mm / 2
            = lp0.y_mm + specCfg.label_height_mm / 2
        ∧ (specCfg.text_position = TextPos.none →
            c.qr_y_mm + specCfg.qr_size_mm / 2
              = lp0.y_mm + specCfg.label_height_mm / 2)) :=
  ⟨rfl, C7_horizontal_centering.1 specCfg lp0 40 rfl⟩

/-- C8: with caption mode `none`, in both arrangements, all four caption
coordinates of the returned `ContentPosition` are the zero sentinel. -/
theorem C8_caption_suppression (cfg : LayoutConfig) (lp : LabelPosition)
    (w : ℚ) (h : cfg.text_position = TextPos.none) :
    ∃ c, getContentPosition cfg lp w = Except.ok c
      ∧ c.qr_text_x_mm = 0 ∧ c.qr_text_y_mm = 0
      ∧ c.barcode_text_x_mm = 0 ∧ c.barcode_text_y_mm = 0 := by
  refine ⟨{ qr_x_mm := (contentLocals cfg lp w).qr_x_mm,
            qr_y_mm := (contentLocals cfg lp w).qr_y_mm,
            barcode_x_mm := (contentLocals cfg lp w).barcode_x_mm,
            barcode_y_mm := (contentLocals cfg lp w).barcode_y_mm,
            barcode_width_mm := w,
            qr_text_x_mm := 0, qr_text_y_mm := 0,
            barcode_text_x_mm := 0, barcode_text_y_mm := 0 }, ?_, rfl, rfl, rfl, rfl⟩
  simp [getContentPosition, h]

/-- C8 witness: caption suppression at the concrete scenario configuration
with captions disabled, in both arrangements. -/
theorem C8_caption_suppression_witness :
    ({ specCfg with text_position := TextPos.none } : LayoutConfig).text_position
        = TextPos.none
    ∧ (∃ c, getContentPosition { specCfg with text_position := TextPos.none } lp0 40
          = Except.ok c
        ∧ c.qr_text_x_mm = 0 ∧ c.qr_text_y_mm = 0
        ∧ c.barcode_text_x_mm = 0 ∧ c.barcode_text_y_mm = 0)
    ∧ (∃ c, getContentPosition
            { specCfg with code_arrangement := Arrangement.vertical,
                           text_position := TextPos.none } lp0 40
          = Except.ok c
        ∧ c.qr_text_x_mm = 0 ∧ c.qr_text_y_mm = 0
        ∧ c.barcode_text_x_mm = 0 ∧ c.barcode_text_y_mm = 0) :=
  ⟨rfl, C8_caption_suppression _ lp0 40 rfl, C8_caption_suppression _ lp0 40 rfl⟩

/-- C9: in marker mode the marker is horizontally centered in the cell, and
when captions are enabled the caption anchor X is the cell's left edge,
horizontal center, or far right edge according to the alignment. -/
theorem C9_marker_position (cfg : LayoutConfig) (lp : LabelPosition) (fp : ℚ) :
    (getMarkerPosition cfg lp fp).marker_x_mm
        = lp.x_mm + (cfg.label_width_mm - fp) / 2
    ∧ (cfg.text_position ≠ TextPos.none →
        (getMarkerPosition cfg lp fp).text_x_mm =
          match cfg.text_alignment with
          | TextAlign.left => lp.x_mm
          | TextAlign.center => lp.x_mm + cfg.label_width_mm / 2
          | TextAlign.right => lp.x_mm + cfg.label_width_mm) := by
  constructor
  · rfl
  · intro h
    cases ht : cfg.text_alignment <;> simp [getMarkerPosition, ht, h]

/-- C9 witness: the marker-position facts at the concrete scenario
configuration (bottom captions, center alignment) for a 30mm footprint. -/
theorem C9_marker_position_witness :
    ((getMarkerPosition specCfg lp0 30).marker_x_mm
        = lp0.x_mm + (specCfg.label_width_mm - 30) / 2)
    ∧ (specCfg.text_position ≠ TextPos.none
        ∧ (getMarkerPosition specCfg lp0 30).text_x_mm
            = lp0.x_mm + specCfg.label_width_mm / 2) :=
  ⟨(C9_marker_position specCfg lp0 30).1,
    by decide,
    (C9_marker_position specCfg lp0 30).2 (by decide)⟩

/-- C4: with explicit label dimensions, the resolved counts are
`labels_per_row = floor((usable_width + gap_h) / (label_w + gap_h))` and
`labels_per_column = floor((usable_height + gap_v) / (label_h + gap_v))`;
with only grid counts, the resolved dimensions are
`label_w = (usable_width - (cols-1)*gap_h) / cols` and
`label_h = (usable_height - (rows-1)*gap_v) / rows`, where
`usable_width = 210 - 2*margin` and `usable_height = 297 - 2*margin`.
(The positivity hypotheses keep the embedding on the domain where Python's
`int()` truncation is the floor and no `ZeroDivisionError` can occur.) -/
theorem C4_grid_resolution_formulas :
    (∀ (margin gap_h gap_v label_w label_h : ℚ) (per_row? per_col? : Option ℤ)
        (g : ResolvedGrid),
      0 < label_w + gap_h → 0 < label_h + gap_v →
      0 ≤ (210 - 2 * margin) + gap_h → 0 ≤ (297 - 2 * margin) + gap_v →
      resolveGrid margin gap_h gap_v (some label_w) (some label_h) per_row? per_col?
        = Except.ok g →
      g.labels_per_row = ⌊((210 - 2 * margin) + gap_h) / (label_w + gap_h)⌋
        ∧ g.labels_per_column = ⌊((297 - 2 * margin) + gap_v) / (label_h + gap_v)⌋)
    ∧ (∀ (margin gap_h gap_v : ℚ) (r c : ℤ) (g : ResolvedGrid),
      1 ≤ r → 1 ≤ c →
      resolveGrid margin gap_h gap_v Option.none Option.none (some r) (some c)
        = Except.ok g →
      g.label_width_mm = ((210 - 2 * margin) - ((r : ℚ) - 1) * gap_h) / (r : ℚ)
        ∧ g.label_height_mm = ((297 - 2 * margin) - ((c : ℚ) - 1) * gap_v) / (c : ℚ)) := by
  constructor
  · intro margin gap_h gap_v label_w label_h pr pc g h1 h2 h3 h4 heq
    simp only [resolveGrid] at heq
    split_ifs at heq
    injection heq with heq2
    subst heq2
    exact ⟨truncTowardZero_eq_floor _ (div_nonneg h3 h1.le),
      truncTowardZero_eq_floor _ (div_nonneg h4 h2.le)⟩
  · intro margin gap_h gap_v r c g h1 h2 heq
    simp only [resolveGrid] at heq
    split_ifs at heq
    injection heq with heq2
    subst heq2
    exact ⟨rfl, rfl⟩

/-- C4 witness: the dimensions path at the concrete scenario (margin 10,
labels 60×40, gaps 5, grid counts 3 and 7 also supplied): it resolves to
counts 3 and 6, which are the floors of the claim's formulas. -/
theorem C4_grid_resolution_formulas_witness :
    ((0 : ℚ) < 60 + 5) ∧ ((0 : ℚ) < 40 + 5)
    ∧ ((0 : ℚ) ≤ (210 - 2 * 10) + 5) ∧ ((0 : ℚ) ≤ (297 - 2 * 10) + 5)
    ∧ resolveGrid 10 5 5 (some 60) (some 40) (some 3) (some 7)
        = Except.ok { label_width_mm := 60, label_height_mm := 40,
                      labels_per_row := 3, labels_per_column := 6 }
    ∧ (({ label_width_mm := 60, label_height_mm := 40,
          labels_per_row := 3, labels_per_column := 6 } : ResolvedGrid).labels_per_row
          = ⌊((210 - 2 * 10 : ℚ) + 5) / (60 + 5)⌋
        ∧ ({ label_width_mm := 60, label_height_mm := 40,
             labels_per_row := 3, labels_per_column := 6 } : ResolvedGrid).labels_per_column
          = ⌊((297 - 2 * 10 : ℚ) + 5) / (40 + 5)⌋) := by
  have hres : resolveGrid 10 5 5 (some 60) (some 40) (some 3) (some 7)
      = Except.ok { label_width_mm := 60, label_height_mm := 40,
                    labels_per_row := 3, labels_per_column := 6 } := by
    norm_num [resolveGrid, truncTowardZero]
    rw [show Int.tdiv 94 15 = 6 by decide]
    norm_num
  exact ⟨by norm_num, by norm_num, by norm_num, by norm_num, hres,
    C4_grid_resolution_formulas.1 10 5 5 60 40 (some 3) (some 7) _
      (by norm_num) (by norm_num) (by norm_num) (by norm_num) hres⟩

/-- C5: grid resolution fails exactly when (dimensions path) a derived count
is < 1 — the `NoFit` case — or (grid-counts path) a derived cell dimension is
≤ 0 — the `DegenerateCell` case; supplying both dimensions and grid counts is
only a warning, the dimensions take precedence, and the result is entirely
independent of the supplied grid counts (which are recomputed from the
dimensions, per C4). -/
theorem C5_resolution_failure_iff :
    (∀ (margin gap_h gap_v label_w label_h : ℚ) (per_row? per_col? : Option ℤ),
      0 < label_w + gap_h → 0 < label_h + gap_v →
      0 ≤ (210 - 2 * margin) + gap_h → 0 ≤ (297 - 2 * margin) + gap_v →
      ((∃ e, resolveGrid margin gap_h gap_v (some label_w) (some label_h)
            per_row? per_col? = Except.error e) ↔
        (⌊((210 - 2 * margin) + gap_h) / (label_w + gap_h)⌋ < 1
          ∨ ⌊((297 - 2 * margin) + gap_v) / (label_h + gap_v)⌋ < 1)))
    ∧ (∀ (margin gap_h gap_v : ℚ) (r c : ℤ),
      1 ≤ r → 1 ≤ c →
      ((∃ e, resolveGrid margin gap_h gap_v Option.none Option.none
            (some r) (some c) = Except.error e) ↔
        (((210 - 2 * margin) - ((r : ℚ) - 1) * gap_h) / (r : ℚ) ≤ 0
          ∨ ((297 - 2 * margin) - ((c : ℚ) - 1) * gap_v) / (c : ℚ) ≤ 0)))
    ∧ (∀ (label_w label_h : ℚ) (r c : ℤ),
        ambiguousGridWarning (some label_w) (some label_h) (some r) (some c) = true)
    ∧ (∀ (margin gap_h gap_v label_w label_h : ℚ) (pr pc pr' pc' : Option ℤ),
        resolveGrid margin gap_h gap_v (some label_w) (some label_h) pr pc
          = resolveGrid margin gap_h gap_v (some label_w) (some label_h) pr' pc') := by
  refine ⟨?_, ?_, fun _ _ _ _ => rfl, fun _ _ _ _ _ _ _ _ _ => rfl⟩
  · intro margin gap_h gap_v label_w label_h pr pc h1 h2 h3 h4
    have e1 : truncTowardZero (((210 - 2 * margin) + gap_h) / (label_w + gap_h))
        = ⌊((210 - 2 * margin) + gap_h) / (label_w + gap_h)⌋ :=
      truncTowardZero_eq_floor _ (div_nonneg h3 h1.le)
    have e2 : truncTowardZero (((297 - 2 * margin) + gap_v) / (label_h + gap_v))
        = ⌊((297 - 2 * margin) + gap_v) / (label_h + gap_v)⌋ :=
      truncTowardZero_eq_floor _ (div_nonneg h4 h2.le)
    simp only [resolveGrid, e1, e2]
    split_ifs with hcond
    · exact iff_of_true ⟨LayoutError.NoFit, rfl⟩ hcond
    · exact iff_of_false
        (by rintro ⟨e, he⟩; exact he) hcond
  · intro margin gap_h gap_v r c h1 h2
    simp only [resolveGrid]
    split_ifs with hcond
    · exact iff_of_true ⟨LayoutError.DegenerateCell, rfl⟩ hcond
    · exact iff_of_false
        (by rintro ⟨e, he⟩; exact he) hcond

/-- C5 witness: both path characterizations instantiated at the concrete
scenario inputs (which resolve successfully, so neither failure condition
holds). -/
theorem C5_resolution_failure_iff_witness :
    ((0 : ℚ) < 60 + 5) ∧ ((0 : ℚ) < 40 + 5)
    ∧ ((0 : ℚ) ≤ (210 - 2 * 10) + 5) ∧ ((0 : ℚ) ≤ (297 - 2 * 10) + 5)
    ∧ ((∃ e, resolveGrid 10 5 5 (some 60) (some 40) Option.none Option.none
          = Except.error e) ↔
        (⌊((210 - 2 * 10 : ℚ) + 5) / (60 + 5)⌋ < 1
          ∨ ⌊((297 - 2 * 10 : ℚ) + 5) / (40 + 5)⌋ < 1))
    ∧ ((1 : ℤ) ≤ 3) ∧ ((1 : ℤ) ≤ 7)
    ∧ ((∃ e, resolveGrid 10 5 5 Option.none Option.none (some 3) (some 7)
          = Except.error e) ↔
        (((210 - 2 * 10) - (((3 : ℤ) : ℚ) - 1) * 5) / ((3 : ℤ) : ℚ) ≤ 0
          ∨ ((297 - 2 * 10) - (((7 : ℤ) : ℚ) - 1) * 5) / ((7 : ℤ) : ℚ) ≤ 0)) :=
  ⟨by norm_num, by norm_num, by norm_num, by norm_num,
    C5_resolution_failure_iff.1 10 5 5 60 40 Option.none Option.none
      (by norm_num) (by norm_num) (by norm_num) (by norm_num),
    by norm_num, by norm_num,
    C5_resolution_failure_iff.2.1 10 5 5 3 7 (by norm_num) (by norm_num)⟩

end QRPdf
